import Mathlib

/-!
Verification of the catalog query & pagination layer of the
ITI-Django-Labs marketplace (lab2/lab3): search filtering, pagination,
product/category creation and deletion, and product-code generation.

The Lean definitions below are a shallow embedding of the Python/Django
source.  Records are plain structures, a queryset is a `List` already in
the model's default order (products newest-first, per `Meta.ordering =
['-created_at']`), and the Django ORM / `django.core.paginator`
operations that the views call are embedded as the corresponding pure
functions on lists.
-/

namespace Marketplace

/-- Lowercasing used by case-insensitive matching (`icontains`, `iexact`):
ASCII lowercase, exactly what SQL `LOWER`/Django apply to ASCII text. -/
def lowerChar (c : Char) : Char := c.toLower

/-- Check that `pre` is an initial segment of `l`. -/
def prefixMatch : List Char → List Char → Bool
  | [], _ => true
  | _ :: _, [] => false
  | a :: as, b :: bs => decide (a = b) && prefixMatch as bs

/-- Check that `needle` occurs as a contiguous substring of `hay`. -/
def substringOf : List Char → List Char → Bool
  | needle, [] => prefixMatch needle []
  | needle, c :: rest => prefixMatch needle (c :: rest) || substringOf needle rest

/-- Embedding of the ORM lookup `field__icontains=q`: case-insensitive
substring containment of `q` in the field value. -/
def icontains (hay needle : List Char) : Bool :=
  substringOf (needle.map lowerChar) (hay.map lowerChar)

/-- A record matches the search query when the query occurs
case-insensitively in ANY of the configured fields (the views OR together
one `icontains` filter per field). -/
def matchesAny {α : Type} (fields : List (α → List Char)) (q : List Char) (r : α) : Bool :=
  fields.any (fun f => icontains (f r) q)

/-- Embedding of the search step of `product_list` /
`CategoryListView.get_queryset`: `request.GET.get('search')` is `none`
when absent; `if search_query:` skips filtering for `None` and for the
empty string; otherwise the queryset is narrowed to the rows matching any
configured field, keeping the store's order (the ORs of same-table
filters produce one `WHERE ... OR ...` query, each row at most once). -/
def filter_records {α : Type} (fields : List (α → List Char))
    (records : List α) (query : Option (List Char)) : List α :=
  match query with
  | none => records
  | some q => if q = [] then records else records.filter (matchesAny fields q)


/-- Character list of a string literal (record fields and request
parameters are modelled as `List Char`). -/
def chars (s : String) : List Char := s.data

/-- Value of a parsed decimal literal: sign, integer part, and the list of
fractional digits.  This is what Python's `float(...)` produces for the
plain decimal strings the create form submits. -/
structure DecValue where
  neg : Bool
  ip : Nat
  fp : List Nat
deriving DecidableEq, Repr

/-- Numeric value of a decimal digit character, `none` for anything else. -/
def digitVal (c : Char) : Option Nat :=
  if c.isDigit then some (c.toNat - 48) else none

/-- Parse a non-empty all-digit string to a natural number. -/
def parseNatDigits (l : List Char) : Option Nat :=
  if l = [] then none
  else l.foldl (fun acc c =>
    match acc, digitVal c with
    | some a, some d => some (a * 10 + d)
    | _, _ => none) (some 0)

/-- Embedding of Python `int(s)` on the strings a request carries:
an optional sign followed by one or more decimal digits; anything else
(including the empty string and strings with a decimal point) fails with
`ValueError`, modelled as `none`.  `int(None)` (an absent parameter) also
fails, which callers handle before calling this. -/
def parsePyInt (l : List Char) : Option Int :=
  match l with
  | '-' :: rest => (parseNatDigits rest).map (fun n => -(n : Int))
  | '+' :: rest => (parseNatDigits rest).map (fun n => (n : Int))
  | _ => (parseNatDigits l).map (fun n => (n : Int))

/-- Split a character list at the first '.', keeping the remainder. -/
def breakDot : List Char → List Char × Option (List Char)
  | [] => ([], none)
  | '.' :: rest => ([], some rest)
  | c :: rest =>
    let p := breakDot rest
    (c :: p.1, p.2)

/-- Parse an unsigned decimal literal `digits [ '.' [digits] ]` (also
`.digits`); at least one digit must be present overall. -/
def parseUnsignedFloat (l : List Char) : Option (Nat × List Nat) :=
  match breakDot l with
  | (ip, none) => (parseNatDigits ip).map (fun n => (n, []))
  | (ip, some fp) =>
    match (if ip = [] then some 0 else parseNatDigits ip), fp.mapM digitVal with
    | some n, some ds => if ip = [] ∧ fp = [] then none else some (n, ds)
    | _, _ => none

/-- Embedding of Python `float(s)` on the decimal strings the create form
submits: an optional sign followed by an unsigned decimal literal.
Negative inputs parse successfully --- `float` imposes no sign
restriction. -/
def parsePyFloat (l : List Char) : Option DecValue :=
  match l with
  | '-' :: rest => (parseUnsignedFloat rest).map (fun p => ⟨true, p.1, p.2⟩)
  | '+' :: rest => (parseUnsignedFloat rest).map (fun p => ⟨false, p.1, p.2⟩)
  | _ => (parseUnsignedFloat l).map (fun p => ⟨false, p.1, p.2⟩)

/-- A category row (`category/models.py`): `id` is the primary key, `name`
is unique (the form additionally enforces case-insensitive uniqueness),
`description` is required.  The optional image and the two auto timestamps
carry no information the claims touch and are omitted. -/
structure Category where
  id : Nat
  name : List Char
  description : List Char
deriving DecidableEq, Repr

/-- A product row (`products/models.py`, lab3): `code` is unique at the
store level, `instock` is a `PositiveIntegerField` (a non-negative
integer), `category` is a foreign key with `on_delete=CASCADE`.  `price`
is the parsed decimal the view passes to `create`; image and timestamps
are omitted as above (creation order is kept by list position instead:
the product list is newest-first, matching `ordering = ['-created_at']`). -/
structure Product where
  id : Nat
  name : List Char
  price : DecValue
  instock : Nat
  code : List Char
  description : List Char
  category_id : Nat
deriving DecidableEq, Repr

/-- The backing store: all category rows (in creation order; listing sorts
by name, which no claim depends on) and all product rows newest-first. -/
structure Store where
  categories : List Category
  products : List Product
deriving DecidableEq, Repr

/-- Search fields configured for the product listing
(`product_list`): name, description, code. -/
def productFields : List (Product → List Char) :=
  [Product.name, Product.description, Product.code]

/-- Search fields configured for the category listing
(`CategoryListView.get_queryset`): name, description. -/
def categoryFields : List (Category → List Char) :=
  [Category.name, Category.description]

/-- Embedding of `django.core.paginator.Paginator.num_pages` at the
defaults the views use (`orphans=0`, `allow_empty_first_page=True`):
`ceil(max(1, count) / per_page)`, so an empty listing still has one
(empty) page. -/
def num_pages (count per_page : Nat) : Nat :=
  (max 1 count + per_page - 1) / per_page

/-- Embedding of `Paginator.page(number).object_list`: the slice
`object_list[(number-1)*per_page : number*per_page]` of the filtered,
ordered input. -/
def page_items {α : Type} (records : List α) (per_page number : Nat) : List α :=
  (records.drop ((number - 1) * per_page)).take per_page

/-- Embedding of `Paginator.get_page` applied to the raw `page` request
parameter (`request.GET.get('page')`, `none` when absent):
`validate_number` turns a missing or non-numeric value into
`PageNotAnInteger`, which `get_page` handles as page 1; a numeric value
below 1 or above `num_pages` raises `EmptyPage` (spared only for a 1 on
an allowed empty first page), which `get_page` handles as the LAST page
(`self.num_pages`). -/
def get_page_number (count per_page : Nat) (arg : Option (List Char)) : Nat :=
  match arg with
  | none => 1
  | some s =>
    match parsePyInt s with
    | none => 1
    | some n =>
      if n < 1 then num_pages count per_page
      else if (num_pages count per_page : Int) < n then
        if n = 1 then 1 else num_pages count per_page
      else n.toNat

/-- The page a listing view serves: the item window together with the
resolved page number (`paginator.get_page(page_number)` in
`product_list`). -/
def get_page {α : Type} (records : List α) (per_page : Nat)
    (arg : Option (List Char)) : List α × Nat :=
  (page_items records per_page (get_page_number records.length per_page arg),
   get_page_number records.length per_page arg)

/-- Products are listed 6 per page (`Paginator(products, 6)`). -/
def productsPerPage : Nat := 6

/-- Categories are listed 8 per page (`paginate_by = 8`). -/
def categoriesPerPage : Nat := 8

/-- The paginator never reports zero pages: even an empty listing has one
empty page. -/
theorem one_le_num_pages (count per_page : Nat) (h : 0 < per_page) :
    1 ≤ num_pages count per_page := by
  unfold num_pages
  have h1 : per_page ≤ max 1 count + per_page - 1 := by omega
  exact (Nat.one_le_div_iff h).2 h1

/-- Typed failures of the catalog operations, one per distinct outcome of
the source: the "All fields are required!" branch, the "Invalid category
selected!" branch (`Category.DoesNotExist`), the "Invalid price or stock
value!" branch (`ValueError`), a violated store constraint surfacing
through the generic `except Exception` branch, a 404 on a missing id,
and the form's "A category with this name already exists." rejection. -/
inductive CatalogError where
  | missingFields
  | invalidCategory
  | invalidNumber
  | integrityError
  | notFound
  | duplicateName
deriving DecidableEq, Repr

/-- Embedding of the code-generation expression used at product creation
(`str(uuid.uuid4())[:8].upper()`, in `product_create` and in
`Product.save`): the first eight characters of the random token's string
form, uppercased.  A uuid4 string form is 36 characters whose first eight
are lowercase hexadecimal digits. -/
def generate_code (token : List Char) : List Char :=
  (token.take 8).map Char.toUpper

/-- Lookup of a product by primary key (`get_object_or_404(Product,
pk=pk)` without the 404 wrapping): `none` when no such row exists. -/
def get_product (s : Store) (pid : Nat) : Option Product :=
  s.products.find? (fun p => decide (p.id = pid))

/-- Next auto-assigned product primary key. -/
def nextProductId (s : Store) : Nat :=
  (s.products.map Product.id).foldr max 0 + 1

/-- Next auto-assigned category primary key. -/
def nextCategoryId (s : Store) : Nat :=
  (s.categories.map Category.id).foldr max 0 + 1

/-- Embedding of `product_create` (lab3 `products/views.py`) together
with the store-level constraints its `Product.objects.create` call hits
(`code` unique; `instock` non-negative, from `PositiveIntegerField`):
1. the Python truthiness check `if not all([name, price, description,
   instock, category_id])` rejects absent or empty fields;
2. `Category.objects.get(id=category_id)` coerces the id string to an
   integer (`ValueError` when non-numeric, reported as "Invalid price or
   stock value!") and fails with `DoesNotExist` when no category has that
   id;
3. `float(price)` and `int(instock)` raise `ValueError` on non-numeric
   input; the parsed values are NOT sign-checked by the view;
4. the insert assigns the next id, stores the parsed values, and sets
   `code` from ONE fresh random token; a violated constraint aborts the
   insert and surfaces through the `except Exception` branch.
`tokens` is the stream of random uuid string forms available to the
request; the source consumes exactly `tokens 0`: there is no retry. -/
def product_create (s : Store)
    (name price description instock category : List Char)
    (tokens : Nat → List Char) : Except CatalogError (Store × Product) :=
  if name = [] ∨ price = [] ∨ description = [] ∨ instock = [] ∨ category = [] then
    .error .missingFields
  else
    match parsePyInt category with
    | none => .error .invalidNumber
    | some cid =>
      match s.categories.find? (fun c => decide ((c.id : Int) = cid)) with
      | none => .error .invalidCategory
      | some cat =>
        match parsePyFloat price with
        | none => .error .invalidNumber
        | some priceVal =>
          match parsePyInt instock with
          | none => .error .invalidNumber
          | some stockVal =>
            if stockVal < 0 then .error .integrityError
            else if s.products.any
                (fun q => decide (q.code = generate_code (tokens 0))) then
              .error .integrityError
            else
              .ok (⟨s.categories,
                    ⟨nextProductId s, name, priceVal, stockVal.toNat,
                     generate_code (tokens 0), description, cat.id⟩ ::
                      s.products⟩,
                   ⟨nextProductId s, name, priceVal, stockVal.toNat,
                    generate_code (tokens 0), description, cat.id⟩)

/-- Embedding of `CategoryDeleteView` deleting one category: Django's
`on_delete=CASCADE` on `Product.category` removes every product of the
deleted category in the same transaction --- here a single pure step, so
all-or-nothing by construction.  A missing id is a 404 (`notFound`). -/
def delete_category (s : Store) (cid : Nat) : Except CatalogError Store :=
  if s.categories.any (fun c => decide (c.id = cid)) then
    .ok ⟨s.categories.filter (fun c => decide (¬ c.id = cid)),
         s.products.filter (fun p => decide (¬ p.category_id = cid))⟩
  else .error .notFound

/-- Embedding of `CategoryCreateView` with `CategoryForm`: the form marks
`name` and `description` required, and `clean_name` rejects a name equal
under `name__iexact` (case-insensitive comparison) to an existing
category's name; a valid form inserts the new row. -/
def create_category (s : Store) (name description : List Char) :
    Except CatalogError (Store × Category) :=
  if name = [] ∨ description = [] then .error .missingFields
  else if s.categories.any
      (fun c => decide (c.name.map lowerChar = name.map lowerChar)) then
    .error .duplicateName
  else
    .ok (⟨⟨nextCategoryId s, name, description⟩ :: s.categories, s.products⟩,
         ⟨nextCategoryId s, name, description⟩)

/-- Did the catalog operation succeed? -/
def succeeds {ε α : Type} : Except ε α → Bool
  | .ok _ => true
  | .error _ => false

instance {ε α : Type} [DecidableEq ε] [DecidableEq α] :
    DecidableEq (Except ε α) := fun a b =>
  match a, b with
  | .ok x, .ok y =>
    if h : x = y then isTrue (by rw [h]) else isFalse (by simp [h])
  | .error x, .error y =>
    if h : x = y then isTrue (by rw [h]) else isFalse (by simp [h])
  | .ok _, .error _ => isFalse (by simp)
  | .error _, .ok _ => isFalse (by simp)

/-- The sixteen lowercase hexadecimal digits: the alphabet of the first
eight characters of a uuid4 string form. -/
def hexLowerChars : List Char := chars "0123456789abcdef"

/-- The sixteen uppercase hexadecimal digits. -/
def upperHexChars : List Char := chars "0123456789ABCDEF"

/-- The thirty-six uppercase alphanumeric characters. -/
def upperAlnumChars : List Char := chars "0123456789ABCDEFGHIJKLMNOPQRSTUVWXYZ"

/-- Uppercasing a lowercase hexadecimal digit yields an uppercase
hexadecimal digit, in particular an uppercase alphanumeric character and
never a letter G through Z. -/
theorem toUpper_hexLower : ∀ c ∈ hexLowerChars,
    c.toUpper ∈ upperHexChars ∧ c.toUpper ∈ upperAlnumChars ∧
    c.toUpper ∉ chars "GHIJKLMNOPQRSTUVWXYZ" := by
  decide



/-- Claim C9 --- filtering with an absent or empty query returns exactly the
input records, unchanged and in the same order: `filter` is the identity on
the empty query, for every record list and field configuration. -/
theorem c9_filter_identity_on_empty_query {α : Type}
    (fields : List (α → List Char)) (records : List α) :
    filter_records fields records none = records ∧
    filter_records fields records (some []) = records := by
  constructor
  · rfl
  · simp [filter_records]

/-- Claim C1 --- for every record list and every non-empty query, the
filtered listing contains exactly the records in which the query occurs
case-insensitively in at least one configured field: every output record
matches, every matching input record appears, the output is a sublist of
the input (original order), and each record occurs in the output exactly
as often as a matching record occurs in the input (so each matching record
appears exactly once when the input holds it once). -/
theorem c1_filter_exact_matches {α : Type} [DecidableEq α]
    (fields : List (α → List Char)) (records : List α) (q : List Char)
    (hq : q ≠ []) :
    (∀ r ∈ filter_records fields records (some q), matchesAny fields q r = true) ∧
    (∀ r ∈ records, matchesAny fields q r = true →
        r ∈ filter_records fields records (some q)) ∧
    (filter_records fields records (some q)).Sublist records ∧
    (∀ r, (filter_records fields records (some q)).count r =
        if matchesAny fields q r = true then records.count r else 0) := by
  have h : filter_records fields records (some q)
      = records.filter (matchesAny fields q) := by
    simp [filter_records, hq]
  rw [h]
  refine ⟨?_, ?_, List.filter_sublist _, ?_⟩
  · intro r hr
    exact (List.mem_filter.1 hr).2
  · intro r hr hm
    exact List.mem_filter.2 ⟨hr, hm⟩
  · intro r
    by_cases hm : matchesAny fields q r = true
    · rw [if_pos hm, List.count_filter hm]
    · rw [if_neg hm, List.count_eq_zero]
      intro hmem
      exact hm (List.mem_filter.1 hmem).2

/-- Concrete products used to exercise the filter theorems. -/
def sampleProducts : List Product :=
  [⟨3, chars "Red Hat", ⟨false, 3, []⟩, 1, chars "CCCC3333", chars "a hat", 1⟩,
   ⟨2, chars "Blue Shoe", ⟨false, 2, []⟩, 2, chars "BBBB2222", chars "a shoe", 1⟩,
   ⟨1, chars "Red Shoe", ⟨false, 1, []⟩, 3, chars "AAAA1111", chars "a shoe", 1⟩]

theorem c1_filter_exact_matches_witness :
    (chars "red" ≠ []) ∧
    ((∀ r ∈ filter_records productFields sampleProducts (some (chars "red")),
        matchesAny productFields (chars "red") r = true) ∧
     (∀ r ∈ sampleProducts, matchesAny productFields (chars "red") r = true →
        r ∈ filter_records productFields sampleProducts (some (chars "red"))) ∧
     (filter_records productFields sampleProducts (some (chars "red"))).Sublist
        sampleProducts ∧
     (∀ r, (filter_records productFields sampleProducts (some (chars "red"))).count r =
        if matchesAny productFields (chars "red") r = true
        then sampleProducts.count r else 0)) :=
  ⟨by decide, c1_filter_exact_matches productFields sampleProducts (chars "red")
    (by decide)⟩

/-- Claim C2 counterexample --- over 7 records at 6 per page, requesting
page "0" (a numeric page number below 1) serves the LAST page (page 2,
holding only the seventh record), not page 1 as the claim states:
`Paginator.get_page` maps every `EmptyPage` --- including numbers below
1 --- to `self.num_pages`. -/
theorem c2_counterexample :
    get_page (List.range 7) productsPerPage (some (chars "0")) = ([6], 2) ∧
    get_page (List.range 7) productsPerPage (some (chars "0")) ≠
      (page_items (List.range 7) productsPerPage 1, 1) := by
  decide

/-- Claim C2 (amended) --- an absent or non-numeric page number yields
page 1; a numeric page number beyond the last page yields the same items
as the last valid page; and a numeric page number below 1 also yields the
LAST page, not page 1. -/
theorem c2_page_clamping {α : Type} (records : List α) (per_page : Nat)
    (hper : 0 < per_page) :
    get_page records per_page none = (page_items records per_page 1, 1) ∧
    (∀ s, parsePyInt s = none →
      get_page records per_page (some s) = (page_items records per_page 1, 1)) ∧
    (∀ s n, parsePyInt s = some n →
      (n < 1 ∨ (num_pages records.length per_page : Int) < n) →
      get_page records per_page (some s) =
        (page_items records per_page (num_pages records.length per_page),
         num_pages records.length per_page)) := by
  have hnp := one_le_num_pages records.length per_page hper
  refine ⟨rfl, ?_, ?_⟩
  · intro s hs
    simp [get_page, get_page_number, hs]
  · intro s n hs hn
    rcases hn with hn | hn
    · simp [get_page, get_page_number, hs, hn]
    · have hnp' : (1 : Int) ≤ (num_pages records.length per_page : Int) := by
        exact_mod_cast hnp
      have h1 : ¬ n < 1 := by omega
      have h2 : n ≠ 1 := by omega
      simp [get_page, get_page_number, hs, hn, h1, h2]

theorem c2_page_clamping_witness :
    (0 < productsPerPage) ∧
    (get_page (List.range 7) productsPerPage none =
        (page_items (List.range 7) productsPerPage 1, 1) ∧
     (∀ s, parsePyInt s = none →
        get_page (List.range 7) productsPerPage (some s) =
          (page_items (List.range 7) productsPerPage 1, 1)) ∧
     (∀ s n, parsePyInt s = some n →
        (n < 1 ∨ (num_pages (List.range 7).length productsPerPage : Int) < n) →
        get_page (List.range 7) productsPerPage (some s) =
          (page_items (List.range 7) productsPerPage
            (num_pages (List.range 7).length productsPerPage),
           num_pages (List.range 7).length productsPerPage))) :=
  ⟨by decide, c2_page_clamping (List.range 7) productsPerPage (by decide)⟩

/-- Claim C3 counterexample --- an empty product listing has
`total_count = 0` but `total_pages = 1`, not 0: with the default
`allow_empty_first_page=True` the paginator serves one empty first page
and `num_pages` is never 0, so "total_pages equals 0 iff total_count
equals 0" fails at count 0. -/
theorem c3_counterexample :
    num_pages 0 productsPerPage = 1 ∧ ¬ num_pages 0 productsPerPage = 0 := by
  decide

/-- Claim C3 (amended) --- for a non-empty listing `total_pages` equals
`ceil(total_count / page_size)` with page size 6 for products and 8 for
categories; for an empty listing `total_pages` is 1 (an empty, valid
first page); `total_pages` is never 0. -/
theorem c3_total_pages (count : Nat) (h : 0 < count) :
    num_pages count productsPerPage =
      (count + productsPerPage - 1) / productsPerPage ∧
    num_pages count categoriesPerPage =
      (count + categoriesPerPage - 1) / categoriesPerPage ∧
    num_pages 0 productsPerPage = 1 ∧
    num_pages 0 categoriesPerPage = 1 ∧
    0 < num_pages count productsPerPage ∧
    0 < num_pages count categoriesPerPage := by
  have hm : max 1 count = count := by omega
  refine ⟨?_, ?_, by decide, by decide,
    one_le_num_pages count productsPerPage (by decide),
    one_le_num_pages count categoriesPerPage (by decide)⟩
  · unfold num_pages
    rw [hm]
  · unfold num_pages
    rw [hm]

theorem c3_total_pages_witness :
    (0 < 7) ∧
    (num_pages 7 productsPerPage = (7 + productsPerPage - 1) / productsPerPage ∧
     num_pages 7 categoriesPerPage =
       (7 + categoriesPerPage - 1) / categoriesPerPage ∧
     num_pages 0 productsPerPage = 1 ∧
     num_pages 0 categoriesPerPage = 1 ∧
     0 < num_pages 7 productsPerPage ∧
     0 < num_pages 7 categoriesPerPage) :=
  ⟨by decide, c3_total_pages 7 (by decide)⟩

/-- Claim C7 --- creating a category whose (non-empty) name equals an
existing category's name under case-insensitive comparison fails with the
duplicate-name rejection, and the operation returns no new store: the
store is unchanged. -/
theorem c7_duplicate_category_name (s : Store) (name description : List Char)
    (hname : name ≠ []) (hdesc : description ≠ []) (c : Category)
    (hc : c ∈ s.categories)
    (heq : c.name.map lowerChar = name.map lowerChar) :
    create_category s name description = .error .duplicateName := by
  unfold create_category
  rw [if_neg (by simp [hname, hdesc])]
  rw [if_pos]
  exact List.any_eq_true.2 ⟨c, hc, decide_eq_true heq⟩

/-- The store holding exactly the category created first as "Tools". -/
def toolsStore : Store := ⟨[⟨1, chars "Tools", chars "hand tools"⟩], []⟩

theorem c7_duplicate_category_name_witness :
    (create_category ⟨[], []⟩ (chars "Tools") (chars "hand tools") =
      .ok (toolsStore, ⟨1, chars "Tools", chars "hand tools"⟩)) ∧
    (chars "tools" ≠ []) ∧ (chars "power tools" ≠ []) ∧
    (⟨1, chars "Tools", chars "hand tools"⟩ ∈ toolsStore.categories) ∧
    ((chars "Tools").map lowerChar = (chars "tools").map lowerChar) ∧
    create_category toolsStore (chars "tools") (chars "power tools") =
      .error .duplicateName :=
  ⟨by decide, by decide, by decide, by decide, by decide,
   c7_duplicate_category_name toolsStore (chars "tools") (chars "power tools")
     (by decide) (by decide) ⟨1, chars "Tools", chars "hand tools"⟩
     (by decide) (by decide)⟩

/-- Claim C6 --- deleting a category removes the category and every
dependent product in one atomic step (the pure `delete_category` either
fails leaving the store untouched or returns the fully cascaded store):
afterwards no dependent product is retrievable by `get_product`, and ---
given that product ids were distinct and every product referenced an
existing category beforehand --- every remaining product still references
an existing category. -/
theorem c6_cascade_delete (s : Store) (cid : Nat) (s' : Store)
    (hdel : delete_category s cid = .ok s')
    (hids : s.products.Pairwise (fun p q => p.id ≠ q.id))
    (href : ∀ p ∈ s.products, ∃ c ∈ s.categories, c.id = p.category_id) :
    (∀ p ∈ s.products, p.category_id = cid → get_product s' p.id = none) ∧
    (∀ p ∈ s'.products, ¬ p.category_id = cid ∧
      ∃ c ∈ s'.categories, c.id = p.category_id) := by
  unfold delete_category at hdel
  split at hdel
  · injection hdel with hdel
    subst hdel
    constructor
    · intro p hp hpc
      rw [get_product, List.find?_eq_none]
      intro q hq
      have hq' := List.mem_filter.1 hq
      have hqc : ¬ q.category_id = cid := of_decide_eq_true hq'.2
      intro hqp
      have hqp' : q.id = p.id := of_decide_eq_true hqp
      by_cases hpq : p = q
      · exact hqc (hpq ▸ hpc)
      · have hsymm : Symmetric (fun p q : Product => p.id ≠ q.id) :=
          fun _ _ h h' => h h'.symm
        exact hids.forall hsymm hp hq'.1 hpq hqp'.symm
    · intro p hp
      have hp' := List.mem_filter.1 hp
      have hpc : ¬ p.category_id = cid := of_decide_eq_true hp'.2
      refine ⟨hpc, ?_⟩
      obtain ⟨c, hc, hcid⟩ := href p hp'.1
      exact ⟨c, List.mem_filter.2 ⟨hc, decide_eq_true (by omega)⟩, hcid⟩
  · exact Except.noConfusion hdel

/-- A store with two categories and three products, two of them dependent
on the category about to be deleted. -/
def cascadeStore : Store :=
  ⟨[⟨1, chars "Tools", chars "d"⟩, ⟨2, chars "Toys", chars "d"⟩],
   [⟨3, chars "Hammer", ⟨false, 3, []⟩, 1, chars "CCCC3333", chars "d", 1⟩,
    ⟨2, chars "Ball", ⟨false, 2, []⟩, 1, chars "BBBB2222", chars "d", 2⟩,
    ⟨1, chars "Saw", ⟨false, 1, []⟩, 1, chars "AAAA1111", chars "d", 1⟩]⟩

/-- The cascade store after deleting category 1. -/
def cascadeStoreAfter : Store :=
  ⟨[⟨2, chars "Toys", chars "d"⟩],
   [⟨2, chars "Ball", ⟨false, 2, []⟩, 1, chars "BBBB2222", chars "d", 2⟩]⟩

theorem c6_cascade_delete_witness :
    (delete_category cascadeStore 1 = .ok cascadeStoreAfter) ∧
    (cascadeStore.products.Pairwise (fun p q => p.id ≠ q.id)) ∧
    (∀ p ∈ cascadeStore.products, ∃ c ∈ cascadeStore.categories,
        c.id = p.category_id) ∧
    ((∀ p ∈ cascadeStore.products, p.category_id = 1 →
        get_product cascadeStoreAfter p.id = none) ∧
     (∀ p ∈ cascadeStoreAfter.products, ¬ p.category_id = 1 ∧
        ∃ c ∈ cascadeStoreAfter.categories, c.id = p.category_id)) :=
  ⟨by decide, by decide, by decide,
   c6_cascade_delete cascadeStore 1 cascadeStoreAfter (by decide) (by decide)
     (by decide)⟩

/-- A successful `product_create` both fixes the created product's code as
the code generated from the first (and only) consumed random token, and
certifies that no existing product carried that code --- the store's
uniqueness check would have aborted the insert otherwise. -/
theorem product_create_ok_code (s : Store)
    (name price description instock category : List Char)
    (tokens : Nat → List Char) (s' : Store) (p : Product)
    (hok : product_create s name price description instock category tokens =
      .ok (s', p)) :
    p.code = generate_code (tokens 0) ∧
    ∀ q ∈ s.products, q.code ≠ generate_code (tokens 0) := by
  unfold product_create at hok
  split at hok
  · exact Except.noConfusion hok
  split at hok
  · exact Except.noConfusion hok
  split at hok
  · exact Except.noConfusion hok
  split at hok
  · exact Except.noConfusion hok
  split at hok
  · exact Except.noConfusion hok
  split at hok
  · exact Except.noConfusion hok
  split at hok
  · exact Except.noConfusion hok
  next hcol =>
    injection hok with hok
    injection hok with hok1 hok2
    constructor
    · rw [← hok2]
    · intro q hq
      have h := List.any_eq_false.1 (Bool.eq_false_iff.2 hcol) q hq
      exact of_decide_eq_false (Bool.eq_false_iff.2 h)

/-- Claim C8 --- when a product is created (the creation succeeds), its
auto-generated code is a string of exactly 8 uppercase alphanumeric
characters, and it differs from the code of every product existing at
that moment.  The hypotheses on the random token state the shape of a
uuid4 string form: 36 characters whose first eight are lowercase
hexadecimal digits. -/
theorem c8_code_shape_and_unique (s : Store)
    (name price description instock category : List Char)
    (tokens : Nat → List Char) (s' : Store) (p : Product)
    (hlen : (tokens 0).length = 36)
    (hhex : ∀ c ∈ (tokens 0).take 8, c ∈ hexLowerChars)
    (hok : product_create s name price description instock category tokens =
      .ok (s', p)) :
    p.code.length = 8 ∧ (∀ c ∈ p.code, c ∈ upperAlnumChars) ∧
    ∀ q ∈ s.products, q.code ≠ p.code := by
  obtain ⟨hcode, hfresh⟩ := product_create_ok_code s name price description
    instock category tokens s' p hok
  rw [hcode]
  refine ⟨?_, ?_, ?_⟩
  · rw [generate_code, List.length_map, List.length_take, hlen]
    decide
  · intro c hc
    rw [generate_code, List.mem_map] at hc
    obtain ⟨c', hc', rfl⟩ := hc
    exact (toUpper_hexLower c' (hhex c' hc')).2.1
  · exact hfresh

/-- A store holding one category and no products, for exercising
creation. -/
def c8store : Store := ⟨[⟨1, chars "Tools", chars "d"⟩], []⟩

/-- A uuid4 string form used as the concrete random token. -/
def c8token : List Char := chars "abcdef12-3456-7890-abcd-ef1234567890"

/-- The product created from `c8store` with token `c8token`. -/
def c8prod : Product :=
  ⟨1, chars "Anvil", ⟨false, 5, []⟩, 1, chars "ABCDEF12", chars "heavy", 1⟩

theorem c8_code_shape_and_unique_witness :
    (c8token.length = 36) ∧ (∀ c ∈ c8token.take 8, c ∈ hexLowerChars) ∧
    (product_create c8store (chars "Anvil") (chars "5") (chars "heavy")
        (chars "1") (chars "1") (fun _ => c8token) =
      .ok (⟨c8store.categories, [c8prod]⟩, c8prod)) ∧
    (c8prod.code.length = 8 ∧ (∀ c ∈ c8prod.code, c ∈ upperAlnumChars) ∧
      ∀ q ∈ c8store.products, q.code ≠ c8prod.code) :=
  ⟨by decide, by decide, by decide,
   c8_code_shape_and_unique c8store (chars "Anvil") (chars "5") (chars "heavy")
     (chars "1") (chars "1") (fun _ => c8token) ⟨c8store.categories, [c8prod]⟩
     c8prod (by decide) (by decide) (by decide)⟩

/-- Claim C10 --- every auto-generated product code consists only of the
sixteen hexadecimal characters 0-9 and A-F (it is the uppercased first
eight characters of a uuid4 string form, which are lowercase hexadecimal
digits); the letters G through Z never occur, and the effective alphabet
is a strict subset of the uppercase alphanumeric set the spec names:
every uppercase hexadecimal character is uppercase alphanumeric, while
'G' is uppercase alphanumeric but not hexadecimal. -/
theorem c10_code_alphabet_hex_only (token : List Char)
    (hhex : ∀ c ∈ token.take 8, c ∈ hexLowerChars) :
    (∀ c ∈ generate_code token, c ∈ upperHexChars) ∧
    (∀ c ∈ generate_code token, c ∉ chars "GHIJKLMNOPQRSTUVWXYZ") ∧
    (∀ c ∈ upperHexChars, c ∈ upperAlnumChars) ∧
    'G' ∈ upperAlnumChars ∧ 'G' ∉ upperHexChars := by
  refine ⟨?_, ?_, by decide, by decide, by decide⟩
  · intro c hc
    rw [generate_code, List.mem_map] at hc
    obtain ⟨c', hc', rfl⟩ := hc
    exact (toUpper_hexLower c' (hhex c' hc')).1
  · intro c hc
    rw [generate_code, List.mem_map] at hc
    obtain ⟨c', hc', rfl⟩ := hc
    exact (toUpper_hexLower c' (hhex c' hc')).2.2

theorem c10_code_alphabet_hex_only_witness :
    (∀ c ∈ c8token.take 8, c ∈ hexLowerChars) ∧
    ((∀ c ∈ generate_code c8token, c ∈ upperHexChars) ∧
     (∀ c ∈ generate_code c8token, c ∉ chars "GHIJKLMNOPQRSTUVWXYZ") ∧
     (∀ c ∈ upperHexChars, c ∈ upperAlnumChars) ∧
     'G' ∈ upperAlnumChars ∧ 'G' ∉ upperHexChars) :=
  ⟨by decide, c10_code_alphabet_hex_only c8token (by decide)⟩

/-- A random-token stream whose first token collides with the existing
product code in `c4store` while its second token is fresh. -/
def c4tokens : Nat → List Char
  | 0 => chars "deadbeef-0000-4000-8000-000000000000"
  | _ => chars "12345678-0000-4000-8000-000000000000"

/-- A store holding one category and one product whose code equals the
code generated from the first token of `c4tokens`. -/
def c4store : Store :=
  ⟨[⟨1, chars "Tools", chars "d"⟩],
   [⟨1, chars "Anvil", ⟨false, 5, []⟩, 1, chars "DEADBEEF", chars "d", 1⟩]⟩

/-- Claim C4 counterexample --- with an existing product whose code equals
the code generated from the first random token, and a second, fresh token
available in the stream, `product_create` fails outright through the
store's uniqueness constraint (the generic exception branch): the source
never generates a second token, has no bounded retry loop, and no
`CodeGenerationExhausted` error exists anywhere in its error handling. -/
theorem c4_counterexample :
    c4store.products.all
      (fun q => decide (¬ q.code = generate_code (c4tokens 1))) = true ∧
    product_create c4store (chars "Nail") (chars "5") (chars "d") (chars "1")
      (chars "1") c4tokens = .error .integrityError := by
  decide

/-- Claim C4 (amended) --- code generation makes exactly one attempt:
the outcome of `product_create` depends only on the first token of the
random stream (so no retry can consult a later token), and when that
single generated code collides with an existing product's code the
creation fails --- it never succeeds, for any supply of further fresh
tokens.  No operation is retried at all. -/
theorem c4_single_token_no_retry (s : Store)
    (name price description instock category : List Char)
    (tokens tokens2 : Nat → List Char) (h0 : tokens 0 = tokens2 0)
    (hcol : s.products.any
      (fun q => decide (q.code = generate_code (tokens 0))) = true) :
    product_create s name price description instock category tokens =
      product_create s name price description instock category tokens2 ∧
    ∀ r, product_create s name price description instock category tokens ≠
      .ok r := by
  constructor
  · unfold product_create
    rw [h0]
  · intro r hr
    obtain ⟨s', p⟩ := r
    obtain ⟨-, hfresh⟩ := product_create_ok_code s name price description
      instock category tokens s' p hr
    obtain ⟨q, hq, hqc⟩ := List.any_eq_true.1 hcol
    exact hfresh q hq (of_decide_eq_true hqc)

theorem c4_single_token_no_retry_witness :
    (c4tokens 0 = c4tokens 0) ∧
    (c4store.products.any
      (fun q => decide (q.code = generate_code (c4tokens 0))) = true) ∧
    ((product_create c4store (chars "Nail") (chars "5") (chars "d")
        (chars "1") (chars "1") c4tokens =
      product_create c4store (chars "Nail") (chars "5") (chars "d")
        (chars "1") (chars "1") c4tokens) ∧
     ∀ r, product_create c4store (chars "Nail") (chars "5") (chars "d")
        (chars "1") (chars "1") c4tokens ≠ .ok r) :=
  ⟨rfl, by decide,
   c4_single_token_no_retry c4store (chars "Nail") (chars "5") (chars "d")
     (chars "1") (chars "1") c4tokens c4tokens rfl (by decide)⟩

/-- Claim C5 counterexample --- the price input "-5" parses as the
NEGATIVE decimal -5, not as a non-negative decimal, yet `product_create`
succeeds and creates the product: `float(price)` imposes no sign
restriction and neither the view nor the store constrains the price's
sign, so no `ValidationError` is returned. -/
theorem c5_counterexample :
    parsePyFloat (chars "-5") = some ⟨true, 5, []⟩ ∧
    succeeds (product_create c8store (chars "Anvil") (chars "-5") (chars "d")
      (chars "1") (chars "1") (fun _ => c8token)) = true := by
  decide

/-- Claim C5 (amended) --- `product_create` returns an error (and creates
nothing) when a required field is missing or empty, when the price input
does not parse as a decimal, or when the instock input does not parse as
an integer; an instock that parses negative is stopped only by the
store's non-negativity constraint (`PositiveIntegerField`), surfacing as
a generic creation error; but the price's sign is NOT validated: creation
succeeds whenever all fields are present, the referenced category exists,
the price parses as a decimal of either sign, the instock parses
non-negatively, and the generated code is fresh. -/
theorem c5_validation_behaviour (s : Store)
    (name price description instock category : List Char)
    (tokens : Nat → List Char) :
    ((name = [] ∨ price = [] ∨ description = [] ∨ instock = [] ∨
        category = []) →
      product_create s name price description instock category tokens =
        .error .missingFields) ∧
    (∀ cid cat, name ≠ [] → price ≠ [] → description ≠ [] → instock ≠ [] →
      category ≠ [] → parsePyInt category = some cid →
      s.categories.find? (fun c => decide ((c.id : Int) = cid)) = some cat →
      parsePyFloat price = none →
      product_create s name price description instock category tokens =
        .error .invalidNumber) ∧
    (∀ cid cat priceVal, name ≠ [] → price ≠ [] → description ≠ [] →
      instock ≠ [] → category ≠ [] → parsePyInt category = some cid →
      s.categories.find? (fun c => decide ((c.id : Int) = cid)) = some cat →
      parsePyFloat price = some priceVal → parsePyInt instock = none →
      product_create s name price description instock category tokens =
        .error .invalidNumber) ∧
    (∀ cid cat priceVal stockVal, name ≠ [] → price ≠ [] → description ≠ [] →
      instock ≠ [] → category ≠ [] → parsePyInt category = some cid →
      s.categories.find? (fun c => decide ((c.id : Int) = cid)) = some cat →
      parsePyFloat price = some priceVal → parsePyInt instock = some stockVal →
      stockVal < 0 →
      product_create s name price description instock category tokens =
        .error .integrityError) ∧
    (∀ cid cat priceVal stockVal, name ≠ [] → price ≠ [] → description ≠ [] →
      instock ≠ [] → category ≠ [] → parsePyInt category = some cid →
      s.categories.find? (fun c => decide ((c.id : Int) = cid)) = some cat →
      parsePyFloat price = some priceVal → parsePyInt instock = some stockVal →
      ¬ stockVal < 0 →
      s.products.any (fun q => decide (q.code = generate_code (tokens 0))) =
        false →
      succeeds (product_create s name price description instock category
        tokens) = true) := by
  refine ⟨?_, ?_, ?_, ?_, ?_⟩
  · intro h
    unfold product_create
    rw [if_pos h]
  · intro cid cat h1 h2 h3 h4 h5 hcid hcat hpv
    simp [product_create, h1, h2, h3, h4, h5, hcid, hcat, hpv]
  · intro cid cat priceVal h1 h2 h3 h4 h5 hcid hcat hpv hsv
    simp [product_create, h1, h2, h3, h4, h5, hcid, hcat, hpv, hsv]
  · intro cid cat priceVal stockVal h1 h2 h3 h4 h5 hcid hcat hpv hsv hneg
    simp [product_create, h1, h2, h3, h4, h5, hcid, hcat, hpv, hsv, hneg]
  · intro cid cat priceVal stockVal h1 h2 h3 h4 h5 hcid hcat hpv hsv hneg hcol
    simp [product_create, succeeds, h1, h2, h3, h4, h5, hcid, hcat, hpv, hsv,
      hneg, hcol]

theorem c5_validation_behaviour_witness :
    (product_create c8store [] (chars "5") (chars "d") (chars "1") (chars "1")
        (fun _ => c8token) = .error .missingFields) ∧
    (succeeds (product_create c8store (chars "Anvil") (chars "-5") (chars "d")
        (chars "1") (chars "1") (fun _ => c8token)) = true) :=
  ⟨(c5_validation_behaviour c8store [] (chars "5") (chars "d") (chars "1")
      (chars "1") (fun _ => c8token)).1 (Or.inl rfl),
   (c5_validation_behaviour c8store (chars "Anvil") (chars "-5") (chars "d")
      (chars "1") (chars "1") (fun _ => c8token)).2.2.2.2 1
     ⟨1, chars "Tools", chars "d"⟩ ⟨true, 5, []⟩ 1 (by decide) (by decide)
     (by decide) (by decide) (by decide) (by decide) (by decide) (by decide)
     (by decide) (by decide) (by decide)⟩

end Marketplace
